import Mathlib

/-!
Shallow embedding of `server/routes/styleguide-routes.ts` (Express route
handlers and the SANDRA chat responder) together with the uniqueness
constraints declared in the Drizzle schema (`userModels`, `domains`).

JavaScript strings are embedded as Lean `String`; `message.toLowerCase()`
becomes `lowerString`, `String.prototype.includes` becomes `strIncludes`
(substring containment over the character list), and the JavaScript
falsy-coalescing `x || fallback` on optional string fields becomes `jsOr`
(absent or empty string selects the fallback).  Handlers are embedded as
pure functions that also return the list of storage-boundary calls they
perform, and the storage boundary itself (which lies outside the
routes of this file) is passed in as an `Except`-valued oracle so that a thrown
exception is the `Except.error` case, landing in the catch branch of the route.
-/

/-- Lower-case a string character by character, as `message.toLowerCase()`
does for the ASCII keywords the classifier looks for. -/
def lowerString (s : String) : String := ⟨s.data.map Char.toLower⟩

/-- Embedding of JavaScript `s.includes(pat)`: `pat` occurs as a contiguous
substring of `s`. -/
def strIncludes (s pat : String) : Bool := decide (pat.toList <:+: s.toList)

/-- Spec-side reading of "contains the literal substring": there are strings
around `pat` inside `s`.  Stated independently of the executable search so
that the classifier theorem relates code to spec. -/
def specContainsSub (s pat : String) : Prop :=
  ∃ p q, s.toList = p ++ pat.toList ++ q

/-- Embedding of `onboardingData?.field || "fallback"`: JavaScript `||`
replaces both an absent value and an empty string by the fallback. -/
def jsOr (x : Option String) (fallback : String) : String :=
  match x with
  | some s => if s = "" then fallback else s
  | none => fallback

/-- Colors object of a styleguide template; the route code reads
`template.colors.primary` and passes the whole object through. -/
structure TemplateColors where
  primary : String
deriving DecidableEq

/-- Typography object of a styleguide template; the route code reads
`template.typography.headline` and passes the whole object through. -/
structure TemplateTypography where
  headline : String
deriving DecidableEq

/-- A styleguide template as consumed by `generateSandraStyleguideResponse`:
the fields the route file reads from the imported template object. -/
structure StyleTemplate where
  id : String
  name : String
  description : String
  colors : TemplateColors
  typography : TemplateTypography
  voiceProfile : String
  visualElements : String
deriving DecidableEq

/-- Onboarding record as read by the chat responder through optional
chaining: each of the three fields may be absent. -/
structure OnboardingRecord where
  personalMission : Option String
  brandVoice : Option String
  targetAudience : Option String
deriving DecidableEq

/-- The `styleguideData` payload attached to a creation response. -/
structure StyleguideData where
  templateId : String
  templateName : String
  colors : TemplateColors
  typography : TemplateTypography
  voiceProfile : String
  visualElements : String
  personalMission : String
  brandVoice : String
  targetAudience : String
deriving DecidableEq

/-- Response object of the SANDRA chat responder.  The two JavaScript object
shapes (creation and conversation) are merged into one record with optional
fields, with `type` holding the discriminating string. -/
structure ChatResponse where
  type : String
  message : String
  styleguideData : Option StyleguideData
  templateApplied : Option String
  suggestions : Option (List String)
deriving DecidableEq

/-- The context object passed to `generateSandraStyleguideResponse` at its
call site: `{ message, userId, onboardingData, currentStyleguide,
availableTemplates }`.  The type of the current styleguide draft is left
polymorphic because the function never inspects it. -/
structure SandraContext (σ : Type) where
  message : String
  userId : String
  onboardingData : Option OnboardingRecord
  currentStyleguide : σ
  availableTemplates : List StyleTemplate

/-- The classifier local `isCreationRequest` of the source: the lower-cased
message includes "create", "new" or "generate". -/
def isCreationRequest (message : String) : Bool :=
  strIncludes (lowerString message) "create" ||
  strIncludes (lowerString message) "new" ||
  strIncludes (lowerString message) "generate"

/-- Spec-side classification: the lower-cased message contains at least one
of the three literal substrings. -/
def specCreation (message : String) : Prop :=
  specContainsSub (lowerString message) "create" ∨
  specContainsSub (lowerString message) "new" ∨
  specContainsSub (lowerString message) "generate"

/-- The interpolated narration string of the creation branch. -/
def creationMessage (template : StyleTemplate) : String :=
  "I\x27ve created a beautiful \"" ++ template.name ++
  "\" styleguide for you! This template features " ++
  lowerString template.description ++
  ". It uses " ++ template.typography.headline ++
  " typography and a sophisticated color palette with " ++
  template.colors.primary ++
  " as the primary color. Perfect for your brand personality!"

/-- The fixed invitational message of the conversation branch. -/
def conversationMessage : String :=
  "I\x27d love to help you create your personalized styleguide! " ++
  "I can create a beautiful brand bible using your AI images, personal story, and preferences. " ++
  "Just say \"create my styleguide\" and I\x27ll get started!"

/-- The static suggestion list of the conversation branch. -/
def chatSuggestions : List String :=
  ["Create my styleguide", "Show me templates", "What information do you need?"]

/-- The object returned by the creation branch for the selected template and
the onboarding data of the caller. -/
def creationResponse (template : StyleTemplate)
    (onboardingData : Option OnboardingRecord) : ChatResponse :=
  { type := "styleguide_created",
    message := creationMessage template,
    styleguideData := some {
      templateId := template.id,
      templateName := template.name,
      colors := template.colors,
      typography := template.typography,
      voiceProfile := template.voiceProfile,
      visualElements := template.visualElements,
      personalMission :=
        jsOr (onboardingData.bind (fun o => o.personalMission))
          "Your unique mission and vision",
      brandVoice :=
        jsOr (onboardingData.bind (fun o => o.brandVoice))
          "Professional and authentic",
      targetAudience :=
        jsOr (onboardingData.bind (fun o => o.targetAudience))
          "Your ideal clients" },
    templateApplied := some template.id,
    suggestions := none }

/-- The object returned by the conversation branch. -/
def conversationResponse : ChatResponse :=
  { type := "conversation",
    message := conversationMessage,
    styleguideData := none,
    templateApplied := none,
    suggestions := some chatSuggestions }

/-- Embedding of `generateSandraStyleguideResponse`.  The creation branch
reads `availableTemplates[0]`; with an empty list the JavaScript code throws
(property access on `undefined`), embedded as `none`. -/
def generateSandraStyleguideResponse {σ : Type} (context : SandraContext σ) :
    Option ChatResponse :=
  if isCreationRequest context.message then
    match context.availableTemplates with
    | [] => none
    | template :: _ => some (creationResponse template context.onboardingData)
  else
    some conversationResponse

/-- The claims object of an authenticated request: `req.user.claims` with an
optional `sub`. -/
structure UserClaims where
  sub : Option String
deriving DecidableEq

/-- The `req.user` object; `claims` itself may be absent. -/
structure ReqUser where
  claims : Option UserClaims
deriving DecidableEq

/-- Embedding of the optional chain `req.user?.claims?.sub`. -/
def extractUserId (user : Option ReqUser) : Option String :=
  (user.bind (fun u => u.claims)).bind (fun c => c.sub)

/-- Embedding of the guard `if (!userId)`: JavaScript treats both an absent
identifier and the empty string as falsy. -/
def truthyUserId (user : Option ReqUser) : Option String :=
  match extractUserId user with
  | some s => if s = "" then none else some s
  | none => none

/-- One call across the storage boundary, recorded with the user id it was
made for. -/
inductive StorageCall where
  | createOrUpdateStyleguide (userId : String)
  | getOnboardingData (userId : String)
deriving DecidableEq

/-- A JSON response body: either the error shape `\x7b message: string \x7d`
or a success payload. -/
inductive RouteBody (α : Type) where
  | message (m : String)
  | payload (a : α)
deriving DecidableEq

/-- An HTTP response: status code plus body. -/
structure RouteResponse (α : Type) where
  status : Nat
  body : RouteBody α
deriving DecidableEq

/-- Color palette of the hardcoded demo styleguide. -/
structure ColorPalette where
  primary : String
  secondary : String
  accent : String
  text : String
  background : String
  border : String
deriving DecidableEq

/-- Typography of the hardcoded demo styleguide. -/
structure DemoTypography where
  headline : String
  subheading : String
  body : String
  accent : String
deriving DecidableEq

/-- Image selections of the hardcoded demo styleguide. -/
structure ImageSelections where
  heroImage : String
  portraitImages : List String
  lifestyleImages : List String
deriving DecidableEq

/-- Brand personality of the hardcoded demo styleguide. -/
structure BrandPersonality where
  traits : List String
  keywords : List String
  vibe : String
deriving DecidableEq

/-- Business application fields of the hardcoded demo styleguide. -/
structure BusinessApplications where
  primaryService : String
  priceRange : String
  clientExperience : String
deriving DecidableEq

/-- The full field set of the demo styleguide document returned for
`demo123`. -/
structure DemoStyleguide where
  id : Nat
  userId : String
  templateId : String
  title : String
  subtitle : String
  personalMission : String
  brandVoice : String
  targetAudience : String
  visualStyle : String
  colorPalette : ColorPalette
  typography : DemoTypography
  imageSelections : ImageSelections
  brandPersonality : BrandPersonality
  businessApplications : BusinessApplications
  isActive : Bool
  createdAt : String
  updatedAt : String
deriving DecidableEq

/-- The hardcoded demo styleguide literal of the GET handler; the two
timestamp fields come from `new Date().toISOString()` at request time and
are therefore parameters. -/
def demoStyleguideDoc (nowCreated nowUpdated : String) : DemoStyleguide :=
  { id := 1,
    userId := "demo123",
    templateId := "minimalistic",
    title := "Sarah Johnson",
    subtitle := "Strategic Brand Consultant",
    personalMission := "Empowering women entrepreneurs to build authentic, profitable brands that reflect their true essence and create meaningful impact in the world.",
    brandVoice := "Warm, professional, and inspiring with an authentic, conversational tone that makes complex business concepts feel accessible and achievable.",
    targetAudience := "Ambitious women entrepreneurs ready to elevate their brand and scale their business with authentic, strategic positioning.",
    visualStyle := "Refined minimal with editorial sophistication",
    colorPalette :=
      { primary := "#1a1a1a",
        secondary := "#666666",
        accent := "#f8f8f8",
        text := "#1a1a1a",
        background := "#fefefe",
        border := "#f0f0f0" },
    typography :=
      { headline := "Helvetica Neue, sans-serif",
        subheading := "Helvetica Neue, sans-serif",
        body := "Helvetica Neue, sans-serif",
        accent := "Helvetica Neue, sans-serif" },
    imageSelections :=
      { heroImage := "https://i.postimg.cc/VLCFmXVr/1.png",
        portraitImages :=
          ["https://i.postimg.cc/VLCFmXVr/1.png",
           "https://i.postimg.cc/WpDyqFyj/10.png",
           "https://i.postimg.cc/SRz1B3Hk/11.png"],
        lifestyleImages :=
          ["https://i.postimg.cc/VLCFmXVr/1.png",
           "https://i.postimg.cc/WpDyqFyj/10.png",
           "https://i.postimg.cc/SRz1B3Hk/11.png",
           "https://i.postimg.cc/VLCFmXVr/1.png"] },
    brandPersonality :=
      { traits := ["Authentic", "Professional", "Inspiring", "Strategic", "Warm", "Confident"],
        keywords := ["Authentic", "Strategic", "Inspiring"],
        vibe := "Refined Minimal Professional" },
    businessApplications :=
      { primaryService := "Strategic Brand Consulting",
        priceRange := "Premium Investment",
        clientExperience := "Transformational & Personal" },
    isActive := true,
    createdAt := nowCreated,
    updatedAt := nowUpdated }

/-- Handler of `GET /api/styleguide/:userId`: the `demo123` branch returns
the demo document, every other id falls through to 404.  No storage call is
made on any path. -/
def getStyleguideHandler (userId : String) (nowCreated nowUpdated : String) :
    RouteResponse DemoStyleguide × List StorageCall :=
  if userId = "demo123" then
    ({ status := 200, body := RouteBody.payload (demoStyleguideDoc nowCreated nowUpdated) }, [])
  else
    ({ status := 404, body := RouteBody.message "Styleguide not found" }, [])

/-- Handler of `POST /api/styleguide`: falsy caller id gives 401 before any
storage call; otherwise `storage.createOrUpdateStyleguide` is invoked, a
thrown error landing in the catch branch as 500. -/
def postStyleguideHandler {β γ : Type}
    (createOrUpdateStyleguide : String → β → Except String γ)
    (user : Option ReqUser) (reqBody : β) :
    RouteResponse γ × List StorageCall :=
  match truthyUserId user with
  | none => ({ status := 401, body := RouteBody.message "User not authenticated" }, [])
  | some userId =>
    match createOrUpdateStyleguide userId reqBody with
    | Except.ok styleguide =>
      ({ status := 200, body := RouteBody.payload styleguide },
       [StorageCall.createOrUpdateStyleguide userId])
    | Except.error _ =>
      ({ status := 500, body := RouteBody.message "Failed to create styleguide" },
       [StorageCall.createOrUpdateStyleguide userId])

/-- Handler of `GET /api/styleguide-templates`: the static one-element
catalog built from the imported template. -/
def getTemplatesHandler (minimalisticTemplate : StyleTemplate) :
    RouteResponse (List StyleTemplate) × List StorageCall :=
  ({ status := 200, body := RouteBody.payload [minimalisticTemplate] }, [])

/-- Handler of `POST /api/styleguide-chat`: falsy caller id gives 401;
otherwise onboarding data is loaded (a thrown error giving 500) and the
chat responder is run with the one-element template catalog.  The `none`
case of the responder is the crash-into-catch path, also 500. -/
def postStyleguideChatHandler {σ : Type} (minimalisticTemplate : StyleTemplate)
    (getOnboardingData : String → Except String (Option OnboardingRecord))
    (user : Option ReqUser) (message : String) (currentStyleguide : σ) :
    RouteResponse ChatResponse × List StorageCall :=
  match truthyUserId user with
  | none => ({ status := 401, body := RouteBody.message "User not authenticated" }, [])
  | some userId =>
    match getOnboardingData userId with
    | Except.error _ =>
      ({ status := 500, body := RouteBody.message "Failed to process styleguide request" },
       [StorageCall.getOnboardingData userId])
    | Except.ok onboardingData =>
      match generateSandraStyleguideResponse
          ⟨message, userId, onboardingData, currentStyleguide, [minimalisticTemplate]⟩ with
      | some response =>
        ({ status := 200, body := RouteBody.payload response },
         [StorageCall.getOnboardingData userId])
      | none =>
        ({ status := 500, body := RouteBody.message "Failed to process styleguide request" },
         [StorageCall.getOnboardingData userId])

/-- Row of the `user_models` table: `user_id` and `trigger_word` carry
`.notNull().unique()`, the other columns are nullable. -/
structure UserModelRow where
  id : Nat
  userId : String
  replicateModelId : Option String
  triggerWord : String
  trainingStatus : String
  modelName : Option String
  createdAt : Option String
  completedAt : Option String
deriving DecidableEq

/-- Row of the `domains` table: `domain` is `.notNull().unique()`,
`subdomain` is nullable but `.unique()`. -/
structure DomainRow where
  id : Nat
  userId : String
  domain : String
  subdomain : Option String
  isVerified : Bool
  sslStatus : String
  connectedTo : Option String
  resourceId : Option Nat
deriving DecidableEq

/-- The uniqueness constraints declared on `user_models`: primary key,
unique owning key, unique trigger word. -/
def userModelsSchemaOk (rows : List UserModelRow) : Prop :=
  (rows.map (fun r => r.id)).Nodup ∧
  (rows.map (fun r => r.userId)).Nodup ∧
  (rows.map (fun r => r.triggerWord)).Nodup

/-- The uniqueness constraints declared on `domains`: primary key, unique
domain string, and uniqueness of the nullable subdomain among non-null
values (SQL UNIQUE does not compare NULLs). -/
def domainsSchemaOk (rows : List DomainRow) : Prop :=
  (rows.map (fun r => r.id)).Nodup ∧
  (rows.map (fun r => r.domain)).Nodup ∧
  (rows.filterMap (fun r => r.subdomain)).Nodup

/-- Concrete template used to exercise the definitions on closed inputs. -/
def sampleTemplate : StyleTemplate :=
  { id := "minimalistic",
    name := "Refined Minimalistic",
    description := "Clean editorial lines",
    colors := { primary := "#0a0a0a" },
    typography := { headline := "Times New Roman" },
    voiceProfile := "warm and direct",
    visualElements := "generous whitespace" }

/-- The executable substring check agrees with the spec-side containment
property. -/
theorem strIncludes_iff (s pat : String) :
    strIncludes s pat = true ↔ specContainsSub s pat := by
  unfold strIncludes specContainsSub
  rw [decide_eq_true_eq]
  constructor
  · rintro ⟨p, q, hpq⟩
    exact ⟨p, q, hpq.symm⟩
  · rintro ⟨p, q, hpq⟩
    exact ⟨p, q, hpq.symm⟩

/-- The boolean classifier of the code agrees with the spec-side classification. -/
theorem isCreationRequest_iff_spec (m : String) :
    isCreationRequest m = true ↔ specCreation m := by
  unfold isCreationRequest specCreation
  rw [Bool.or_eq_true, Bool.or_eq_true]
  rw [strIncludes_iff, strIncludes_iff, strIncludes_iff]
  tauto

/-- The chat responder reads neither `userId` nor `currentStyleguide` from
its context. -/
theorem sandra_response_ignores_extras {σ₁ σ₂ : Type} (m uid₁ uid₂ : String)
    (o : Option OnboardingRecord) (c₁ : σ₁) (c₂ : σ₂)
    (ts : List StyleTemplate) :
    generateSandraStyleguideResponse ⟨m, uid₁, o, c₁, ts⟩ =
    generateSandraStyleguideResponse ⟨m, uid₂, o, c₂, ts⟩ := rfl

/-- A column with no duplicate values distinguishes every two distinct row
positions. -/
theorem column_pairwise_ne {α β : Type} (rows : List α) (col : α → β)
    (h : (rows.map col).Nodup) :
    rows.Pairwise (fun a b => col a ≠ col b) := List.pairwise_map.mp h

/-- A column with no duplicate values admits at most one row per value. -/
theorem filter_col_length_le_one {α β : Type} [DecidableEq β] (col : α → β)
    (u : β) :
    ∀ rows : List α, (rows.map col).Nodup →
      (rows.filter fun r => col r = u).length ≤ 1 := by
  intro rows
  induction rows with
  | nil => intro _; simp
  | cons a t ih =>
    intro h
    rw [List.map_cons, List.nodup_cons] at h
    obtain ⟨hna, ht⟩ := h
    by_cases ha : col a = u
    · rw [List.filter_cons_of_pos (by simpa using ha)]
      have hnil : (t.filter fun r => col r = u) = [] := by
        rw [List.filter_eq_nil_iff]
        intro b hb
        simp only [decide_eq_true_eq]
        intro hbu
        exact hna (by rw [← ha] at hbu; exact hbu ▸ List.mem_map_of_mem col hb)
      simp [hnil]
    · rw [List.filter_cons_of_neg (by simpa using ha)]
      exact ih ht

/-- A nullable column whose present values have no duplicates never holds
the same value in two distinct row positions. -/
theorem nullable_column_pairwise {α β : Type} (col : α → Option β) :
    ∀ rows : List α, (rows.filterMap col).Nodup →
      rows.Pairwise (fun a b => ∀ v, col a = some v → col b ≠ some v) := by
  intro rows
  induction rows with
  | nil => intro _; exact List.Pairwise.nil
  | cons a t ih =>
    intro h
    rw [List.filterMap_cons] at h
    cases hfa : col a with
    | none =>
      rw [hfa] at h
      refine List.Pairwise.cons ?_ (ih h)
      intro b _ v hv
      rw [hfa] at hv
      exact absurd hv (by simp)
    | some v0 =>
      rw [hfa] at h
      rw [List.nodup_cons] at h
      obtain ⟨hmem, ht⟩ := h
      refine List.Pairwise.cons ?_ (ih ht)
      intro b hb v hv hcb
      rw [hfa] at hv
      injection hv with hv
      apply hmem
      rw [hv]
      exact List.mem_filterMap.mpr ⟨b, hb, hcb⟩

/-- C1: for every message (given a non-empty template catalog, where the
responder returns a value at all), the response is the creation branch if
and only if the lower-cased message contains one of the literal substrings
"create", "new" or "generate", and it is the conversation branch exactly
otherwise. -/
theorem sandra_classifier_iff {σ : Type} (ctx : SandraContext σ)
    (hne : ctx.availableTemplates ≠ []) :
    ∃ r, generateSandraStyleguideResponse ctx = some r ∧
      (r.type = "styleguide_created" ↔ specCreation ctx.message) ∧
      (r.type = "conversation" ↔ ¬ specCreation ctx.message) := by
  obtain ⟨t, rest, hts⟩ : ∃ t rest, ctx.availableTemplates = t :: rest := by
    cases h : ctx.availableTemplates with
    | nil => exact absurd h hne
    | cons t rest => exact ⟨t, rest, rfl⟩
  by_cases h : isCreationRequest ctx.message = true
  · have hspec := (isCreationRequest_iff_spec ctx.message).mp h
    refine ⟨creationResponse t ctx.onboardingData, ?_, ?_, ?_⟩
    · simp [generateSandraStyleguideResponse, h, hts]
    · exact ⟨fun _ => hspec, fun _ => rfl⟩
    · constructor
      · intro habs
        have hfalse : "styleguide_created" = "conversation" := habs
        exact absurd hfalse (by decide)
      · intro hn
        exact absurd hspec hn
  · have hspec : ¬ specCreation ctx.message := fun hs =>
      h ((isCreationRequest_iff_spec ctx.message).mpr hs)
    refine ⟨conversationResponse, ?_, ?_, ?_⟩
    · simp [generateSandraStyleguideResponse, h]
    · constructor
      · intro habs
        have hfalse : "conversation" = "styleguide_created" := habs
        exact absurd hfalse (by decide)
      · intro hs
        exact absurd hs hspec
    · exact ⟨fun _ => hspec, fun _ => rfl⟩

/-- Closed instance of the classifier theorem: "CREATE", "New", "GENERATE"
and "created" all land in the creation branch, and the creation condition
itself holds for each of them. -/
theorem sandra_classifier_iff_witness :
    (∃ r, generateSandraStyleguideResponse
        (⟨"CREATE", "user1", none, (), [sampleTemplate]⟩ : SandraContext Unit) = some r ∧
      (r.type = "styleguide_created" ↔ specCreation "CREATE") ∧
      (r.type = "conversation" ↔ ¬ specCreation "CREATE")) ∧
    specCreation "CREATE" ∧ specCreation "New" ∧
    specCreation "GENERATE" ∧ specCreation "created" ∧ ¬ specCreation "hello" := by
  refine ⟨sandra_classifier_iff ⟨"CREATE", "user1", none, (), [sampleTemplate]⟩ (by decide),
    (isCreationRequest_iff_spec "CREATE").mp (by decide),
    (isCreationRequest_iff_spec "New").mp (by decide),
    (isCreationRequest_iff_spec "GENERATE").mp (by decide),
    (isCreationRequest_iff_spec "created").mp (by decide),
    fun hs => ?_⟩
  have : isCreationRequest "hello" = true := (isCreationRequest_iff_spec "hello").mpr hs
  exact absurd this (by decide)

/-- C2: whenever the message is a creation request and the template catalog
is non-empty, the response has type "styleguide_created", applies the first
template (templateId and templateApplied equal its id), carries the colors,
typography, voiceProfile and visualElements of that template, and merges
in the onboarding-derived mission, voice and audience. -/
theorem sandra_creation_first_template {σ : Type} (ctx : SandraContext σ)
    (t : StyleTemplate) (rest : List StyleTemplate)
    (hts : ctx.availableTemplates = t :: rest) (hcr : specCreation ctx.message) :
    ∃ r d, generateSandraStyleguideResponse ctx = some r ∧
      r.type = "styleguide_created" ∧
      r.styleguideData = some d ∧
      r.templateApplied = some t.id ∧
      d.templateId = t.id ∧
      d.templateName = t.name ∧
      d.colors = t.colors ∧
      d.typography = t.typography ∧
      d.voiceProfile = t.voiceProfile ∧
      d.visualElements = t.visualElements ∧
      d.personalMission =
        jsOr (ctx.onboardingData.bind (fun o => o.personalMission))
          "Your unique mission and vision" ∧
      d.brandVoice =
        jsOr (ctx.onboardingData.bind (fun o => o.brandVoice))
          "Professional and authentic" ∧
      d.targetAudience =
        jsOr (ctx.onboardingData.bind (fun o => o.targetAudience))
          "Your ideal clients" := by
  have h : isCreationRequest ctx.message = true :=
    (isCreationRequest_iff_spec ctx.message).mpr hcr
  refine ⟨creationResponse t ctx.onboardingData, _, ?_,
    rfl, rfl, rfl, rfl, rfl, rfl, rfl, rfl, rfl, rfl, rfl, rfl⟩
  simp [generateSandraStyleguideResponse, h, hts]

/-- Closed instance of the creation theorem at the documented example
message "please create something" with a concrete one-template catalog. -/
theorem sandra_creation_first_template_witness :
    specCreation "please create something" ∧
    ∃ r d, generateSandraStyleguideResponse
        (⟨"please create something", "user1", none, (), [sampleTemplate]⟩ :
          SandraContext Unit) = some r ∧
      r.type = "styleguide_created" ∧
      r.styleguideData = some d ∧
      r.templateApplied = some "minimalistic" ∧
      d.templateId = "minimalistic" ∧
      d.templateName = "Refined Minimalistic" ∧
      d.colors = sampleTemplate.colors ∧
      d.typography = sampleTemplate.typography ∧
      d.voiceProfile = "warm and direct" ∧
      d.visualElements = "generous whitespace" ∧
      d.personalMission = "Your unique mission and vision" ∧
      d.brandVoice = "Professional and authentic" ∧
      d.targetAudience = "Your ideal clients" := by
  have hcr : specCreation "please create something" :=
    (isCreationRequest_iff_spec "please create something").mp (by decide)
  exact ⟨hcr, sandra_creation_first_template
    ⟨"please create something", "user1", none, (), [sampleTemplate]⟩
    sampleTemplate [] rfl hcr⟩

/-- C3: for a creation request with absent onboarding data, the three
personalization fields are exactly the documented placeholder strings. -/
theorem sandra_onboarding_fallbacks {σ : Type} (ctx : SandraContext σ)
    (t : StyleTemplate) (rest : List StyleTemplate)
    (hts : ctx.availableTemplates = t :: rest) (hcr : specCreation ctx.message)
    (hob : ctx.onboardingData = none) :
    ∃ r d, generateSandraStyleguideResponse ctx = some r ∧
      r.styleguideData = some d ∧
      d.personalMission = "Your unique mission and vision" ∧
      d.brandVoice = "Professional and authentic" ∧
      d.targetAudience = "Your ideal clients" := by
  have h : isCreationRequest ctx.message = true :=
    (isCreationRequest_iff_spec ctx.message).mpr hcr
  refine ⟨creationResponse t ctx.onboardingData, _, ?_, rfl, ?_, ?_, ?_⟩
  · simp [generateSandraStyleguideResponse, h, hts]
  all_goals simp [creationResponse, hob, jsOr]

/-- Closed instance of the fallback theorem with absent onboarding data. -/
theorem sandra_onboarding_fallbacks_witness :
    specCreation "generate it" ∧
    ∃ r d, generateSandraStyleguideResponse
        (⟨"generate it", "user1", none, (), [sampleTemplate]⟩ :
          SandraContext Unit) = some r ∧
      r.styleguideData = some d ∧
      d.personalMission = "Your unique mission and vision" ∧
      d.brandVoice = "Professional and authentic" ∧
      d.targetAudience = "Your ideal clients" := by
  have hcr : specCreation "generate it" :=
    (isCreationRequest_iff_spec "generate it").mp (by decide)
  exact ⟨hcr, sandra_onboarding_fallbacks
    ⟨"generate it", "user1", none, (), [sampleTemplate]⟩
    sampleTemplate [] rfl hcr rfl⟩

/-- C7: every message that is not a creation request gets the fixed
conversation response, whose suggestion list is exactly the three
documented entries. -/
theorem sandra_conversation_branch {σ : Type} (ctx : SandraContext σ)
    (h : ¬ specCreation ctx.message) :
    generateSandraStyleguideResponse ctx = some conversationResponse ∧
    conversationResponse.type = "conversation" ∧
    conversationResponse.message = conversationMessage ∧
    conversationResponse.suggestions =
      some ["Create my styleguide", "Show me templates", "What information do you need?"] ∧
    chatSuggestions.length = 3 := by
  have hb : isCreationRequest ctx.message = false := by
    cases hx : isCreationRequest ctx.message with
    | false => rfl
    | true => exact absurd ((isCreationRequest_iff_spec ctx.message).mp hx) h
  exact ⟨by simp [generateSandraStyleguideResponse, hb], rfl, rfl, rfl, rfl⟩

/-- Closed instance of the conversation theorem at message "hello". -/
theorem sandra_conversation_branch_witness :
    generateSandraStyleguideResponse
      (⟨"hello", "user1", none, (), [sampleTemplate]⟩ : SandraContext Unit) =
      some conversationResponse ∧
    conversationResponse.type = "conversation" ∧
    conversationResponse.message = conversationMessage ∧
    conversationResponse.suggestions =
      some ["Create my styleguide", "Show me templates", "What information do you need?"] ∧
    chatSuggestions.length = 3 := by
  refine sandra_conversation_branch ⟨"hello", "user1", none, (), [sampleTemplate]⟩ (fun hs => ?_)
  have : isCreationRequest "hello" = true := (isCreationRequest_iff_spec "hello").mpr hs
  exact absurd this (by decide)

/-- C6: the responder is a deterministic pure function of (message,
onboardingData, currentStyleguide, availableTemplates): two contexts equal
in those four fields (even with different user ids) produce equal outputs.
The embedding as a total Lean function is itself the statement that the
code performs no mutation, randomness or external call. -/
theorem sandra_deterministic_pure {σ : Type} (c₁ c₂ : SandraContext σ)
    (hm : c₁.message = c₂.message)
    (ho : c₁.onboardingData = c₂.onboardingData)
    (hc : c₁.currentStyleguide = c₂.currentStyleguide)
    (ht : c₁.availableTemplates = c₂.availableTemplates) :
    generateSandraStyleguideResponse c₁ = generateSandraStyleguideResponse c₂ := by
  cases c₁
  cases c₂
  simp only at hm ho hc ht
  subst hm
  subst ho
  subst hc
  subst ht
  exact sandra_response_ignores_extras _ _ _ _ _ _ _

/-- Closed instance of the determinism theorem: two contexts differing only
in the user id give the same output. -/
theorem sandra_deterministic_pure_witness :
    generateSandraStyleguideResponse
      (⟨"create it", "alice", none, (), [sampleTemplate]⟩ : SandraContext Unit) =
    generateSandraStyleguideResponse
      (⟨"create it", "bob", none, (), [sampleTemplate]⟩ : SandraContext Unit) :=
  sandra_deterministic_pure
    ⟨"create it", "alice", none, (), [sampleTemplate]⟩
    ⟨"create it", "bob", none, (), [sampleTemplate]⟩
    rfl rfl rfl rfl

/-- C10: the response never depends on the current styleguide draft — the
`currentStyleguide` field may be replaced by any value of any type without
changing the output. -/
theorem sandra_ignores_current_styleguide {σ₁ σ₂ : Type}
    (message userId : String) (onboardingData : Option OnboardingRecord)
    (availableTemplates : List StyleTemplate) (c₁ : σ₁) (c₂ : σ₂) :
    generateSandraStyleguideResponse
      ⟨message, userId, onboardingData, c₁, availableTemplates⟩ =
    generateSandraStyleguideResponse
      ⟨message, userId, onboardingData, c₂, availableTemplates⟩ :=
  sandra_response_ignores_extras message userId userId onboardingData c₁ c₂
    availableTemplates

/-- C4: the GET styleguide handler returns the fixed fully-populated demo
document (with isActive true) exactly for user id "demo123", a 404 message
body for every other id, and performs no storage call on either path. -/
theorem get_styleguide_route_spec (userId nowCreated nowUpdated : String) :
    (getStyleguideHandler userId nowCreated nowUpdated).2 = [] ∧
    (userId = "demo123" →
      (getStyleguideHandler userId nowCreated nowUpdated).1 =
        { status := 200,
          body := RouteBody.payload (demoStyleguideDoc nowCreated nowUpdated) } ∧
      (demoStyleguideDoc nowCreated nowUpdated).isActive = true) ∧
    (userId ≠ "demo123" →
      (getStyleguideHandler userId nowCreated nowUpdated).1 =
        { status := 404, body := RouteBody.message "Styleguide not found" }) := by
  refine ⟨?_, ?_, ?_⟩
  · by_cases h : userId = "demo123" <;> simp [getStyleguideHandler, h]
  · intro h
    exact ⟨by simp [getStyleguideHandler, h], rfl⟩
  · intro h
    simp [getStyleguideHandler, h]

/-- Closed instance of the GET styleguide theorem for the demo id and for a
different id. -/
theorem get_styleguide_route_spec_witness :
    ((getStyleguideHandler "demo123" "t1" "t2").1 =
      { status := 200, body := RouteBody.payload (demoStyleguideDoc "t1" "t2") } ∧
     (demoStyleguideDoc "t1" "t2").isActive = true) ∧
    (getStyleguideHandler "someoneElse" "t1" "t2").1 =
      { status := 404, body := RouteBody.message "Styleguide not found" } ∧
    (getStyleguideHandler "someoneElse" "t1" "t2").2 = [] :=
  ⟨(get_styleguide_route_spec "demo123" "t1" "t2").2.1 rfl,
   (get_styleguide_route_spec "someoneElse" "t1" "t2").2.2 (by decide),
   (get_styleguide_route_spec "someoneElse" "t1" "t2").1⟩

/-- C5: a POST styleguide request whose caller identity is missing gets a
401 with a message body, and no storage call is made. -/
theorem post_styleguide_unauthenticated {β γ : Type}
    (createOrUpdateStyleguide : String → β → Except String γ)
    (user : Option ReqUser) (reqBody : β)
    (h : extractUserId user = none) :
    postStyleguideHandler createOrUpdateStyleguide user reqBody =
      ({ status := 401, body := RouteBody.message "User not authenticated" }, []) := by
  unfold postStyleguideHandler truthyUserId
  rw [h]

/-- Closed instance of the unauthenticated POST theorem with an absent
`req.user`. -/
theorem post_styleguide_unauthenticated_witness :
    postStyleguideHandler (fun uid (_ : Unit) => Except.ok uid) none () =
      ({ status := 401, body := RouteBody.message "User not authenticated" }, []) :=
  post_styleguide_unauthenticated (fun uid (_ : Unit) => Except.ok uid) none () rfl

/-- C8: on every route, every non-success response carries a body of shape
message-string, and an exception surfacing from the storage boundary is
translated to a 500 with such a body; the handlers are total functions, so
nothing is retried or re-thrown. -/
theorem routes_failure_body_shape {β γ σ : Type}
    (createOrUpdateStyleguide : String → β → Except String γ)
    (getOnboardingData : String → Except String (Option OnboardingRecord))
    (minimalisticTemplate : StyleTemplate)
    (userId nowCreated nowUpdated : String) (user : Option ReqUser)
    (reqBody : β) (message : String) (currentStyleguide : σ) :
    ((getStyleguideHandler userId nowCreated nowUpdated).1.status ≠ 200 →
      ∃ m, (getStyleguideHandler userId nowCreated nowUpdated).1.body =
        RouteBody.message m) ∧
    ((postStyleguideHandler createOrUpdateStyleguide user reqBody).1.status ≠ 200 →
      ∃ m, (postStyleguideHandler createOrUpdateStyleguide user reqBody).1.body =
        RouteBody.message m) ∧
    ((getTemplatesHandler minimalisticTemplate).1.status ≠ 200 →
      ∃ m, (getTemplatesHandler minimalisticTemplate).1.body =
        RouteBody.message m) ∧
    ((postStyleguideChatHandler minimalisticTemplate getOnboardingData user
        message currentStyleguide).1.status ≠ 200 →
      ∃ m, (postStyleguideChatHandler minimalisticTemplate getOnboardingData user
        message currentStyleguide).1.body = RouteBody.message m) ∧
    (∀ uid e, truthyUserId user = some uid →
      createOrUpdateStyleguide uid reqBody = Except.error e →
      (postStyleguideHandler createOrUpdateStyleguide user reqBody).1 =
        { status := 500, body := RouteBody.message "Failed to create styleguide" }) ∧
    (∀ uid e, truthyUserId user = some uid →
      getOnboardingData uid = Except.error e →
      (postStyleguideChatHandler minimalisticTemplate getOnboardingData user
        message currentStyleguide).1 =
        { status := 500,
          body := RouteBody.message "Failed to process styleguide request" }) := by
  refine ⟨?_, ?_, ?_, ?_, ?_, ?_⟩
  · intro hs
    by_cases h : userId = "demo123"
    · exact absurd (by simp [getStyleguideHandler, h]) hs
    · exact ⟨"Styleguide not found", by simp [getStyleguideHandler, h]⟩
  · intro hs
    cases hu : truthyUserId user with
    | none =>
      exact ⟨"User not authenticated", by simp [postStyleguideHandler, hu]⟩
    | some uid =>
      cases hc : createOrUpdateStyleguide uid reqBody with
      | ok g => exact absurd (by simp [postStyleguideHandler, hu, hc]) hs
      | error e =>
        exact ⟨"Failed to create styleguide", by simp [postStyleguideHandler, hu, hc]⟩
  · intro hs
    exact absurd (by simp [getTemplatesHandler]) hs
  · intro hs
    cases hu : truthyUserId user with
    | none =>
      exact ⟨"User not authenticated", by simp [postStyleguideChatHandler, hu]⟩
    | some uid =>
      cases ho : getOnboardingData uid with
      | error e =>
        exact ⟨"Failed to process styleguide request",
          by simp [postStyleguideChatHandler, hu, ho]⟩
      | ok odata =>
        cases hg : generateSandraStyleguideResponse
            (⟨message, uid, odata, currentStyleguide, [minimalisticTemplate]⟩ :
              SandraContext σ) with
        | some r =>
          exact absurd (by simp [postStyleguideChatHandler, hu, ho, hg]) hs
        | none =>
          exact ⟨"Failed to process styleguide request",
            by simp [postStyleguideChatHandler, hu, ho, hg]⟩
  · intro uid e hu hc
    simp [postStyleguideHandler, hu, hc]
  · intro uid e hu ho
    simp [postStyleguideChatHandler, hu, ho]

/-- Closed instance of the failure-shape theorem: a 404 lookup, an
unauthenticated POST, and a storage error surfacing as a 500 on both
storage-touching routes. -/
theorem routes_failure_body_shape_witness :
    (∃ m, (getStyleguideHandler "nobody" "t1" "t2").1.body = RouteBody.message m) ∧
    (∃ m, (postStyleguideHandler (fun uid (_ : Unit) => Except.ok uid) none ()).1.body =
      RouteBody.message m) ∧
    (postStyleguideHandler (fun _ (_ : Unit) => (Except.error "boom" : Except String String))
        (some ⟨some ⟨some "alice"⟩⟩) () ).1 =
      { status := 500, body := RouteBody.message "Failed to create styleguide" } ∧
    (postStyleguideChatHandler sampleTemplate
        (fun _ => (Except.error "boom" : Except String (Option OnboardingRecord)))
        (some ⟨some ⟨some "alice"⟩⟩) "hello" ()).1 =
      { status := 500,
        body := RouteBody.message "Failed to process styleguide request" } := by
  refine ⟨?_, ?_, ?_, ?_⟩
  · exact (routes_failure_body_shape (fun uid (_ : Unit) => Except.ok uid)
      (fun _ => Except.ok none) sampleTemplate "nobody" "t1" "t2" none () "hello"
      ()).1 (by decide)
  · exact (routes_failure_body_shape (fun uid (_ : Unit) => Except.ok uid)
      (fun _ => Except.ok none) sampleTemplate "nobody" "t1" "t2" none () "hello"
      ()).2.1 (by decide)
  · exact (routes_failure_body_shape
      (fun _ (_ : Unit) => (Except.error "boom" : Except String String))
      (fun _ => Except.ok none) sampleTemplate "nobody" "t1" "t2"
      (some ⟨some ⟨some "alice"⟩⟩) () "hello" ()).2.2.2.2.1 "alice" "boom" rfl rfl
  · exact (routes_failure_body_shape
      (fun uid (_ : Unit) => Except.ok uid)
      (fun _ => (Except.error "boom" : Except String (Option OnboardingRecord)))
      sampleTemplate "nobody" "t1" "t2"
      (some ⟨some ⟨some "alice"⟩⟩) () "hello" ()).2.2.2.2.2 "alice" "boom" rfl rfl

/-- C9: in every database state satisfying the declared schema constraints,
a user owns at most one user-model row, no two user-model rows share a
trigger word, and no two domain rows share a domain string or a (non-null)
subdomain string. -/
theorem schema_uniqueness_invariants (ums : List UserModelRow)
    (ds : List DomainRow)
    (hu : userModelsSchemaOk ums) (hd : domainsSchemaOk ds) :
    (∀ u : String, (ums.filter fun r => r.userId = u).length ≤ 1) ∧
    ums.Pairwise (fun a b => a.triggerWord ≠ b.triggerWord) ∧
    ds.Pairwise (fun a b => a.domain ≠ b.domain) ∧
    ds.Pairwise (fun a b => ∀ v, a.subdomain = some v → b.subdomain ≠ some v) := by
  obtain ⟨_, huid, htw⟩ := hu
  obtain ⟨_, hdom, hsub⟩ := hd
  exact ⟨fun u => filter_col_length_le_one (fun r => r.userId) u ums huid,
    column_pairwise_ne ums (fun r => r.triggerWord) htw,
    column_pairwise_ne ds (fun r => r.domain) hdom,
    nullable_column_pairwise (fun r => r.subdomain) ds hsub⟩

/-- Concrete user-model rows used to evaluate the schema constraints. -/
def sampleUserModels : List UserModelRow :=
  [{ id := 1, userId := "alice", replicateModelId := none,
     triggerWord := "sparkle", trainingStatus := "pending",
     modelName := none, createdAt := none, completedAt := none },
   { id := 2, userId := "bob", replicateModelId := some "r2",
     triggerWord := "thunder", trainingStatus := "completed",
     modelName := some "m2", createdAt := some "t", completedAt := some "t" }]

/-- Concrete domain rows used to evaluate the schema constraints. -/
def sampleDomains : List DomainRow :=
  [{ id := 1, userId := "alice", domain := "alice.com",
     subdomain := some "alice", isVerified := true, sslStatus := "active",
     connectedTo := some "brandbook", resourceId := some 7 },
   { id := 2, userId := "bob", domain := "bob.com",
     subdomain := none, isVerified := false, sslStatus := "pending",
     connectedTo := none, resourceId := none }]

/-- Closed instance of the schema invariants on a concrete two-row state. -/
theorem schema_uniqueness_invariants_witness :
    userModelsSchemaOk sampleUserModels ∧ domainsSchemaOk sampleDomains ∧
    (sampleUserModels.filter fun r => r.userId = "alice").length ≤ 1 ∧
    sampleUserModels.Pairwise (fun a b => a.triggerWord ≠ b.triggerWord) ∧
    sampleDomains.Pairwise (fun a b => a.domain ≠ b.domain) := by
  have hu : userModelsSchemaOk sampleUserModels := by
    refine ⟨?_, ?_, ?_⟩ <;> decide
  have hd : domainsSchemaOk sampleDomains := by
    refine ⟨?_, ?_, ?_⟩ <;> decide
  obtain ⟨h1, h2, h3, _⟩ := schema_uniqueness_invariants sampleUserModels sampleDomains hu hd
  exact ⟨hu, hd, h1 "alice", h2, h3⟩
